import Mathlib

/-!
Shallow embedding of the VisionMatrix image inspector
(src/types.ts and src/components/ImageCanvas.tsx).

Pointer positions and natural image coordinates are embedded as rationals
(the arithmetic performed on them in the source is plain field arithmetic),
pixel channel values as naturals, and the Euclidean distance stored in a
completed measurement as a real number.  React useState setters take effect
only on the next render, so inside one invocation of an event handler the
state variables denote the values captured at the previous render; the
handler embeddings below therefore compute the next state and the ordered
list of collaborator notifications from the captured state.
-/

namespace VisionMatrix

/-- Tool modes, from the ToolMode enum in src/types.ts. -/
inductive ToolMode
  | COLOR_PICKER
  | MEASURE
  deriving DecidableEq

/-- A point in natural image pixel coordinates, from src/types.ts. -/
structure Point where
  x : ℚ
  y : ℚ
  deriving DecidableEq

/-- A sampled color, from the ColorData interface in src/types.ts. -/
structure ColorData where
  r : ℕ
  g : ℕ
  b : ℕ
  hex : String
  x : ℤ
  y : ℤ
  deriving DecidableEq

/-- A measurement, from the MeasurementData interface in src/types.ts. -/
structure MeasurementData where
  start : Point
  «end» : Option Point
  distancePixels : ℝ

/-- Natural dimensions of the loaded image, the imgDimensions state of
ImageCanvas. -/
structure Dims where
  width : ℚ
  height : ℚ
  deriving DecidableEq

/-- Raw channel values of one pixel of the bitmap, as returned by
getImageData. -/
structure RGB where
  r : ℕ
  g : ℕ
  b : ℕ
  deriving DecidableEq

/-- The AI analysis result, from the AIAnalysisResult interface in
src/types.ts. -/
structure AIAnalysisResult where
  description : String
  loading : Bool
  error : Option String
  deriving DecidableEq

/-- The internal interaction state of the ImageCanvas component:
measureStart, measureEnd and hoverPos. -/
structure CanvasState where
  measureStart : Option Point
  measureEnd : Option Point
  hoverPos : Option Point
  deriving DecidableEq

/-- The state owned by the App component: image source, tool mode,
selected color, color history, last reported measurement and AI result. -/
structure AppState where
  imageSrc : Option String
  mode : ToolMode
  selectedColor : Option ColorData
  colorHistory : List ColorData
  measurement : Option MeasurementData
  aiResult : AIAnalysisResult

/-- The combined state of the application shell and the canvas component. -/
structure SystemState where
  app : AppState
  canvas : CanvasState

/-- getNaturalCoords of ImageCanvas: convert a pointer position relative to
the bounding rectangle of the canvas into natural image coordinates, scaling
each axis by natural dimension over displayed dimension and clamping to the
image bounds; null when the canvas ref or the image dimensions are absent. -/
def getNaturalCoords (canvasAvailable : Bool) (imgDimensions : Option Dims)
    (offX offY rectW rectH : ℚ) : Option Point :=
  match canvasAvailable, imgDimensions with
  | false, _ => none
  | _, none => none
  | true, some d =>
    let x := offX * (d.width / rectW)
    let y := offY * (d.height / rectH)
    let clampedX := max 0 (min x (d.width - 1))
    let clampedY := max 0 (min y (d.height - 1))
    some { x := clampedX, y := clampedY }

/-- Math.round of JS: round half toward positive infinity. -/
def jsRound (q : ℚ) : ℤ := ⌊q + 1 / 2⌋

/-- WebIDL conversion of a JS number to an integer argument (as performed by
getImageData on its coordinates): truncation toward zero. -/
def jsTrunc (q : ℚ) : ℤ := if 0 ≤ q then ⌊q⌋ else ⌈q⌉

/-- Uppercase hexadecimal digit characters, the reference alphabet used to
state the hex formatting property. -/
def hexDigitU (n : ℕ) : Char :=
  if n = 0 then '0' else
  if n = 1 then '1' else
  if n = 2 then '2' else
  if n = 3 then '3' else
  if n = 4 then '4' else
  if n = 5 then '5' else
  if n = 6 then '6' else
  if n = 7 then '7' else
  if n = 8 then '8' else
  if n = 9 then '9' else
  if n = 10 then 'A' else
  if n = 11 then 'B' else
  if n = 12 then 'C' else
  if n = 13 then 'D' else
  if n = 14 then 'E' else
  if n = 15 then 'F' else
  '*'

/-- Number.toString(16) of JS on a nonnegative integer: minimal-length
lowercase hexadecimal digits. -/
def natToString16 (n : ℕ) : String := String.mk (Nat.toDigits 16 n)

/-- The hex string computed in pickColor of ImageCanvas:
(quote) "#" + ((1 shl 24) + (r shl 16) + (g shl 8) + b).toString(16)
.slice(1).toUpperCase(). -/
def rgbToHex (r g bl : ℕ) : String :=
  "#" ++ ((natToString16 ((1 <<< 24) + (r <<< 16) + (g <<< 8) + bl)).drop 1).toUpper

/-- pickColor of ImageCanvas: read the pixel at the (truncated) mapped
coordinate from the bitmap, format its hex string, and emit a ColorData
whose reported x and y are the coordinate rounded to nearest; emits nothing
when the 2d context is unavailable. -/
def pickColor (ctxAvailable : Bool) (img : ℤ → ℤ → RGB) (coords : Point) :
    Option ColorData :=
  if ctxAvailable then
    let px := img (jsTrunc coords.x) (jsTrunc coords.y)
    some { r := px.r, g := px.g, b := px.b,
           hex := rgbToHex px.r px.g px.b,
           x := jsRound coords.x, y := jsRound coords.y }
  else none

/-- The distance computed in handleMouseDown of ImageCanvas:
Math.sqrt(Math.pow(coords.x - start.x, 2) + Math.pow(coords.y - start.y, 2)). -/
noncomputable def distPixels (start coords : Point) : ℝ :=
  Real.sqrt (((coords.x - start.x : ℚ) : ℝ) ^ 2 + ((coords.y - start.y : ℚ) : ℝ) ^ 2)

/-- handleMouseMove of ImageCanvas: update the hover position when the
pointer maps to a natural coordinate, otherwise do nothing. -/
def handleMouseMove (canvasAvailable : Bool) (imgDimensions : Option Dims)
    (offX offY rectW rectH : ℚ) (s : CanvasState) : CanvasState :=
  match getNaturalCoords canvasAvailable imgDimensions offX offY rectW rectH with
  | some coords => { s with hoverPos := some coords }
  | none => s

/-- handleMouseDown of ImageCanvas.  Returns the component state after the
event together with the ordered list of onMeasurementUpdate notifications
and the list of onColorPicked notifications emitted during the handler.
The measureStart and measureEnd consulted in the body are the values
captured at the previous render, so the restart check at the end of the
measure branch sees the pre-click measureEnd. -/
noncomputable def handleMouseDown (canvasAvailable ctxAvailable : Bool)
    (imgDimensions : Option Dims) (offX offY rectW rectH : ℚ)
    (mode : ToolMode) (img : ℤ → ℤ → RGB) (s : CanvasState) :
    CanvasState × List (Option MeasurementData) × List ColorData :=
  match getNaturalCoords canvasAvailable imgDimensions offX offY rectW rectH with
  | none => (s, [], [])
  | some coords =>
    match mode with
    | ToolMode.COLOR_PICKER =>
      (s, [], (pickColor ctxAvailable img coords).toList)
    | ToolMode.MEASURE =>
      match s.measureStart with
      | none =>
        ({ s with measureStart := some coords, measureEnd := none }, [none], [])
      | some start =>
        let dist := distPixels start coords
        let completed : MeasurementData :=
          { start := start, «end» := some coords, distancePixels := dist }
        match s.measureEnd with
        | some _ =>
          ({ s with measureStart := some coords, measureEnd := none },
            [some completed, none], [])
        | none =>
          ({ s with measureEnd := some coords }, [some completed], [])

/-- handleColorPicked of App: select the color, reset the AI result, and
push the color onto the history keeping the first 20 entries. -/
def handleColorPicked (color : ColorData) (s : AppState) : AppState :=
  { s with
    selectedColor := some color,
    aiResult := { description := "", loading := false, error := none },
    colorHistory := (color :: s.colorHistory).take 20 }

/-- The onClick of the Measure tool button in App: set the mode and clear
the previous measurement; the canvas component state is untouched. -/
def switchToMeasure (s : SystemState) : SystemState :=
  { app := { s.app with mode := ToolMode.MEASURE, measurement := none },
    canvas := s.canvas }

/-- The onClick of the Color tool button in App: set the mode only; neither
the reported measurement nor the canvas component state is touched. -/
def switchToColorPicker (s : SystemState) : SystemState :=
  { app := { s.app with mode := ToolMode.COLOR_PICKER },
    canvas := s.canvas }

/-- analyzeColorContext of src/services/geminiService.ts: fail when the API
key is missing, otherwise forward the service outcome, replacing an absent
or empty response text and an empty error message by their fallbacks. -/
def analyzeColorContext (apiKey : String) (imageBase64 : String) (x y : ℤ)
    (hex : String) (serviceResult : Except String (Option String)) :
    Except String String :=
  if apiKey = "" then Except.error "API Key is missing"
  else
    match serviceResult with
    | Except.ok t =>
      Except.ok (match t with
        | none => "No analysis available."
        | some txt => if txt = "" then "No analysis available." else txt)
    | Except.error m =>
      Except.error (if m = "" then "Failed to analyze image." else m)

/-- The embedding of a point into the Euclidean plane, used to state that
the computed distance is the genuine Euclidean distance. -/
noncomputable def toE2 (p : Point) : EuclideanSpace ℝ (Fin 2) :=
  ![(p.x : ℝ), (p.y : ℝ)]

/-- handleAnalyzeWithAI of App: a no-op unless an image and a selected color
are present; otherwise the aiResult after the call settles records either
the returned description or the error message (with its fallback), and no
other field of the application state is written. -/
def handleAnalyzeWithAI (outcome : Except String String) (s : AppState) :
    AppState :=
  match s.imageSrc, s.selectedColor with
  | some _, some _ =>
    match outcome with
    | Except.ok text =>
      { s with aiResult := { description := text, loading := false, error := none } }
    | Except.error msg =>
      { s with aiResult :=
        { description := "", loading := false,
          error := some (if msg = "" then "Analysis failed" else msg) } }
  | _, _ => s

/-- C2: for every loaded image with natural dimensions W by H and every
pointer position relative to the displayed rectangle, getNaturalCoords
scales each axis by natural dimension over displayed dimension and clamps
to the interval from 0 to the natural dimension minus 1, so the result is
always within bounds; the displayed top-left corner maps to the origin and
the displayed bottom-right corner maps to the bottom-right natural pixel. -/
theorem getNaturalCoords_spec (W H rectW rectH offX offY : ℚ)
    (hW : 1 ≤ W) (hH : 1 ≤ H) (hrW : 0 < rectW) (hrH : 0 < rectH) :
    getNaturalCoords true (some ⟨W, H⟩) offX offY rectW rectH =
      some ⟨max 0 (min (offX * (W / rectW)) (W - 1)),
            max 0 (min (offY * (H / rectH)) (H - 1))⟩ ∧
    0 ≤ max 0 (min (offX * (W / rectW)) (W - 1)) ∧
    max 0 (min (offX * (W / rectW)) (W - 1)) ≤ W - 1 ∧
    0 ≤ max 0 (min (offY * (H / rectH)) (H - 1)) ∧
    max 0 (min (offY * (H / rectH)) (H - 1)) ≤ H - 1 ∧
    getNaturalCoords true (some ⟨W, H⟩) 0 0 rectW rectH = some ⟨0, 0⟩ ∧
    getNaturalCoords true (some ⟨W, H⟩) rectW rectH rectW rectH =
      some ⟨W - 1, H - 1⟩ := by
  refine ⟨rfl, le_max_left _ _, max_le (by linarith) (min_le_right _ _),
    le_max_left _ _, max_le (by linarith) (min_le_right _ _), ?_, ?_⟩
  · simp only [getNaturalCoords, zero_mul]
    rw [min_eq_left (by linarith : (0 : ℚ) ≤ W - 1),
      min_eq_left (by linarith : (0 : ℚ) ≤ H - 1), max_self]
  · simp only [getNaturalCoords]
    rw [mul_div_cancel₀ _ (ne_of_gt hrW), mul_div_cancel₀ _ (ne_of_gt hrH),
      min_eq_right (by linarith), min_eq_right (by linarith),
      max_eq_right (by linarith), max_eq_right (by linarith)]

/-- Witness for C2 at concrete dimensions 2 by 3, displayed size 5 by 7 and
pointer offset (9/2, 1/3). -/
theorem getNaturalCoords_spec_witness :
    getNaturalCoords true (some ⟨2, 3⟩) (9 / 2) (1 / 3) 5 7 =
      some ⟨max 0 (min (9 / 2 * (2 / 5)) (2 - 1)),
            max 0 (min (1 / 3 * (3 / 7)) (3 - 1))⟩ ∧
    0 ≤ max 0 (min ((9 : ℚ) / 2 * (2 / 5)) (2 - 1)) ∧
    max 0 (min ((9 : ℚ) / 2 * (2 / 5)) (2 - 1)) ≤ 2 - 1 ∧
    0 ≤ max 0 (min ((1 : ℚ) / 3 * (3 / 7)) (3 - 1)) ∧
    max 0 (min ((1 : ℚ) / 3 * (3 / 7)) (3 - 1)) ≤ 3 - 1 ∧
    getNaturalCoords true (some ⟨2, 3⟩) 0 0 5 7 = some ⟨0, 0⟩ ∧
    getNaturalCoords true (some ⟨2, 3⟩) 5 7 5 7 = some ⟨2 - 1, 3 - 1⟩ :=
  getNaturalCoords_spec 2 3 5 7 (9 / 2) (1 / 3) (by norm_num) (by norm_num)
    (by norm_num) (by norm_num)

/-- C5 counterexample: switching to the color picker does not clear the
measurement held by the shell, and switching to measure mode does not clear
the internal start point of the canvas, refuting the claim that switching
tool mode in either direction resets the state machine and clears both. -/
theorem modeSwitch_cex :
    (switchToColorPicker
        ⟨⟨some "img", ToolMode.MEASURE, none, [],
          some ⟨⟨0, 0⟩, some ⟨3, 4⟩, 5⟩, ⟨"", false, none⟩⟩,
         ⟨some ⟨0, 0⟩, some ⟨3, 4⟩, none⟩⟩).app.measurement ≠ none ∧
    (switchToMeasure
        ⟨⟨some "img", ToolMode.MEASURE, none, [],
          some ⟨⟨0, 0⟩, some ⟨3, 4⟩, 5⟩, ⟨"", false, none⟩⟩,
         ⟨some ⟨0, 0⟩, some ⟨3, 4⟩, none⟩⟩).canvas.measureStart ≠ none := by
  exact ⟨fun h => Option.noConfusion h, fun h => Option.noConfusion h⟩

/-- C5 amended: switching to measure mode clears the measurement reported
to the shell and switching to color-pick mode leaves it unchanged; neither
switch touches the internal canvas state (start, end, hover). -/
theorem modeSwitch_behavior (s : SystemState) :
    (switchToMeasure s).app.mode = ToolMode.MEASURE ∧
    (switchToMeasure s).app.measurement = none ∧
    (switchToMeasure s).canvas = s.canvas ∧
    (switchToMeasure s).app.selectedColor = s.app.selectedColor ∧
    (switchToMeasure s).app.colorHistory = s.app.colorHistory ∧
    (switchToColorPicker s).app.mode = ToolMode.COLOR_PICKER ∧
    (switchToColorPicker s).app.measurement = s.app.measurement ∧
    (switchToColorPicker s).canvas = s.canvas :=
  ⟨rfl, rfl, rfl, rfl, rfl, rfl, rfl, rfl⟩

/-- C6: the color history is bounded by 20 entries, a pick is prepended
(newest first, the survivors being the leading entries of the old history
in their old order), and a pick against a full history of 20 entries evicts exactly
the last (oldest) entry, keeping the newest 20. -/
theorem colorHistory_invariant (c : ColorData) (s : AppState) :
    (handleColorPicked c s).colorHistory.length ≤ 20 ∧
    (handleColorPicked c s).colorHistory = c :: s.colorHistory.take 19 ∧
    (s.colorHistory.length = 20 →
      (handleColorPicked c s).colorHistory = c :: s.colorHistory.dropLast ∧
      (handleColorPicked c s).colorHistory.length = 20) := by
  refine ⟨?_, ?_, fun h20 => ⟨?_, ?_⟩⟩
  · simp only [handleColorPicked, List.length_take]
    omega
  · simp [handleColorPicked]
  · simp only [handleColorPicked, List.dropLast_eq_take, h20]
    simp
  · simp only [handleColorPicked, List.length_take, List.length_cons, h20]
    omega

/-- Witness for C6 at a full history of 20 identical entries. -/
theorem colorHistory_invariant_witness :
    (handleColorPicked ⟨1, 2, 3, "#010203", 4, 5⟩
        ⟨none, ToolMode.COLOR_PICKER, none,
          List.replicate 20 ⟨9, 9, 9, "#090909", 0, 0⟩, none,
          ⟨"", false, none⟩⟩).colorHistory =
      ⟨1, 2, 3, "#010203", 4, 5⟩ ::
        (List.replicate 20 (⟨9, 9, 9, "#090909", 0, 0⟩ : ColorData)).dropLast ∧
    (handleColorPicked ⟨1, 2, 3, "#010203", 4, 5⟩
        ⟨none, ToolMode.COLOR_PICKER, none,
          List.replicate 20 ⟨9, 9, 9, "#090909", 0, 0⟩, none,
          ⟨"", false, none⟩⟩).colorHistory.length = 20 :=
  (colorHistory_invariant ⟨1, 2, 3, "#010203", 4, 5⟩
    ⟨none, ToolMode.COLOR_PICKER, none,
      List.replicate 20 ⟨9, 9, 9, "#090909", 0, 0⟩, none,
      ⟨"", false, none⟩⟩).2.2 (by decide)

/-- C7: when the canvas is unavailable or no image is loaded the coordinate
mapper returns the absent result, and whenever the mapper returns the
absent result both pointer handlers are no-ops: the canvas state is
unchanged, no measurement notification is sent, and no color is sampled. -/
theorem no_image_or_geometry_noop (canvasAvailable ctxAvailable : Bool)
    (imgDimensions : Option Dims) (offX offY rectW rectH : ℚ)
    (mode : ToolMode) (img : ℤ → ℤ → RGB) (s : CanvasState) :
    getNaturalCoords false imgDimensions offX offY rectW rectH = none ∧
    getNaturalCoords canvasAvailable none offX offY rectW rectH = none ∧
    (getNaturalCoords canvasAvailable imgDimensions offX offY rectW rectH = none →
      handleMouseDown canvasAvailable ctxAvailable imgDimensions
          offX offY rectW rectH mode img s = (s, [], []) ∧
      handleMouseMove canvasAvailable imgDimensions offX offY rectW rectH s = s) := by
  refine ⟨by cases imgDimensions <;> rfl, by cases canvasAvailable <;> rfl,
    fun h => ⟨?_, ?_⟩⟩
  · unfold handleMouseDown
    rw [h]
  · unfold handleMouseMove
    rw [h]

/-- Witness for C7 with the canvas unavailable. -/
theorem no_image_or_geometry_noop_witness :
    handleMouseDown false true none 1 2 3 4 ToolMode.MEASURE
        (fun _ _ => ⟨0, 0, 0⟩) ⟨none, none, none⟩ = (⟨none, none, none⟩, [], []) ∧
    handleMouseMove false none 1 2 3 4 ⟨none, none, none⟩ = ⟨none, none, none⟩ :=
  (no_image_or_geometry_noop false true none 1 2 3 4 ToolMode.MEASURE
    (fun _ _ => ⟨0, 0, 0⟩) ⟨none, none, none⟩).2.2 rfl

/-- C8: the distance computation is symmetric in its two points. -/
theorem distPixels_symm (a b : Point) : distPixels a b = distPixels b a := by
  unfold distPixels
  congr 1
  push_cast
  ring

/-- C9: when the AI analysis call fails, only the aiResult field changes:
the selected color, the color history, the measurement and the mode are
all unchanged, the error is surfaced as a short error string with the
loading flag cleared, and a missing API key is one such failure. -/
theorem ai_failure_atomic (s : AppState) (msg i : String) (c : ColorData)
    (x y : ℤ) (hx : String) (svc : Except String (Option String))
    (him : s.imageSrc = some i) (hsel : s.selectedColor = some c) :
    (handleAnalyzeWithAI (Except.error msg) s).selectedColor = s.selectedColor ∧
    (handleAnalyzeWithAI (Except.error msg) s).colorHistory = s.colorHistory ∧
    (handleAnalyzeWithAI (Except.error msg) s).measurement = s.measurement ∧
    (handleAnalyzeWithAI (Except.error msg) s).mode = s.mode ∧
    (handleAnalyzeWithAI (Except.error msg) s).aiResult =
      ⟨"", false, some (if msg = "" then "Analysis failed" else msg)⟩ ∧
    analyzeColorContext "" i x y hx svc = Except.error "API Key is missing" := by
  unfold handleAnalyzeWithAI analyzeColorContext
  rw [him, hsel]
  exact ⟨rfl, rfl, rfl, rfl, rfl, by simp⟩

/-- Witness for C9 at a concrete application state and error message. -/
theorem ai_failure_atomic_witness :
    (handleAnalyzeWithAI (Except.error "boom")
        ⟨some "data", ToolMode.COLOR_PICKER, some ⟨1, 2, 3, "#010203", 4, 5⟩,
          [], none, ⟨"", false, none⟩⟩).selectedColor =
      (⟨some "data", ToolMode.COLOR_PICKER, some ⟨1, 2, 3, "#010203", 4, 5⟩,
        [], none, ⟨"", false, none⟩⟩ : AppState).selectedColor ∧
    (handleAnalyzeWithAI (Except.error "boom")
        ⟨some "data", ToolMode.COLOR_PICKER, some ⟨1, 2, 3, "#010203", 4, 5⟩,
          [], none, ⟨"", false, none⟩⟩).colorHistory =
      (⟨some "data", ToolMode.COLOR_PICKER, some ⟨1, 2, 3, "#010203", 4, 5⟩,
        [], none, ⟨"", false, none⟩⟩ : AppState).colorHistory ∧
    (handleAnalyzeWithAI (Except.error "boom")
        ⟨some "data", ToolMode.COLOR_PICKER, some ⟨1, 2, 3, "#010203", 4, 5⟩,
          [], none, ⟨"", false, none⟩⟩).measurement =
      (⟨some "data", ToolMode.COLOR_PICKER, some ⟨1, 2, 3, "#010203", 4, 5⟩,
        [], none, ⟨"", false, none⟩⟩ : AppState).measurement ∧
    (handleAnalyzeWithAI (Except.error "boom")
        ⟨some "data", ToolMode.COLOR_PICKER, some ⟨1, 2, 3, "#010203", 4, 5⟩,
          [], none, ⟨"", false, none⟩⟩).mode =
      (⟨some "data", ToolMode.COLOR_PICKER, some ⟨1, 2, 3, "#010203", 4, 5⟩,
        [], none, ⟨"", false, none⟩⟩ : AppState).mode ∧
    (handleAnalyzeWithAI (Except.error "boom")
        ⟨some "data", ToolMode.COLOR_PICKER, some ⟨1, 2, 3, "#010203", 4, 5⟩,
          [], none, ⟨"", false, none⟩⟩).aiResult =
      ⟨"", false, some (if "boom" = "" then "Analysis failed" else "boom")⟩ ∧
    analyzeColorContext "" "data" 4 5 "#010203" (Except.ok none) =
      Except.error "API Key is missing" :=
  ai_failure_atomic _ "boom" "data" ⟨1, 2, 3, "#010203", 4, 5⟩ 4 5 "#010203"
    (Except.ok none) rfl rfl

/-- Helper: the distance computed by the measure handler is the genuine
Euclidean distance of the two points embedded in the plane. -/
theorem distPixels_eq_euclidean (a b : Point) :
    distPixels a b = dist (toE2 a) (toE2 b) := by
  rw [EuclideanSpace.dist_eq]
  unfold distPixels toE2
  congr 1
  rw [Fin.sum_univ_two]
  simp only [Matrix.cons_val_zero, Matrix.cons_val_one, Matrix.head_cons,
    Real.dist_eq]
  rw [sq_abs, sq_abs]
  push_cast
  ring

/-- C1 counterexample: in measure mode, clicking at (3,4) while a start
point (0,0) is recorded and no end point is present records the end but
does not re-arm: the component keeps the old start and holds the completed
end, instead of holding only a fresh pending start at the clicked
coordinate as the claim states. -/
theorem measure_second_click_no_rearm_cex :
    ((handleMouseDown true true (some ⟨10, 10⟩) 3 4 10 10 ToolMode.MEASURE
        (fun _ _ => ⟨0, 0, 0⟩) ⟨some ⟨0, 0⟩, none, none⟩).1.measureStart =
      some ⟨0, 0⟩) ∧
    ((handleMouseDown true true (some ⟨10, 10⟩) 3 4 10 10 ToolMode.MEASURE
        (fun _ _ => ⟨0, 0, 0⟩) ⟨some ⟨0, 0⟩, none, none⟩).1.measureEnd =
      some ⟨3, 4⟩) := by
  have h : getNaturalCoords true (some ⟨10, 10⟩) 3 4 10 10 = some ⟨3, 4⟩ := by
    norm_num [getNaturalCoords]
  unfold handleMouseDown
  rw [h]
  exact ⟨rfl, rfl⟩

/-- C1 amended: in measure mode, a click while a start point is recorded
and the end point is absent records the click as end, computes the
distance, and notifies the collaborator once with the completed
Measurement, which thus remains the last-received value; the component
then holds both the start and the completed end with no immediate re-arm.
The re-arm happens on the next click, from the completed state: that click
first notifies a Measurement from the old start to the newly clicked point
and then re-arms, so the end becomes absent, the clicked point becomes the
new start, and the last notification the collaborator received is the
absent measurement. -/
theorem measure_click_transitions (canvasAvailable ctxAvailable : Bool)
    (imgDimensions : Option Dims) (offX offY rectW rectH : ℚ)
    (img : ℤ → ℤ → RGB) (s0 e0 : Point) (h : Option Point) (c : Point)
    (hc : getNaturalCoords canvasAvailable imgDimensions offX offY rectW rectH =
      some c) :
    handleMouseDown canvasAvailable ctxAvailable imgDimensions
        offX offY rectW rectH ToolMode.MEASURE img ⟨some s0, none, h⟩ =
      (⟨some s0, some c, h⟩, [some ⟨s0, some c, distPixels s0 c⟩], []) ∧
    handleMouseDown canvasAvailable ctxAvailable imgDimensions
        offX offY rectW rectH ToolMode.MEASURE img ⟨some s0, some e0, h⟩ =
      (⟨some c, none, h⟩, [some ⟨s0, some c, distPixels s0 c⟩, none], []) := by
  unfold handleMouseDown
  rw [hc]
  exact ⟨rfl, rfl⟩

/-- Witness for C1 at a 10 by 10 image displayed at natural size, start
point (0,0), stale end point (1,1) and a click at (3,4). -/
theorem measure_click_transitions_witness :
    handleMouseDown true true (some ⟨10, 10⟩) 3 4 10 10 ToolMode.MEASURE
        (fun _ _ => ⟨0, 0, 0⟩) ⟨some ⟨0, 0⟩, none, some ⟨2, 2⟩⟩ =
      (⟨some ⟨0, 0⟩, some ⟨3, 4⟩, some ⟨2, 2⟩⟩,
        [some ⟨⟨0, 0⟩, some ⟨3, 4⟩, distPixels ⟨0, 0⟩ ⟨3, 4⟩⟩], []) ∧
    handleMouseDown true true (some ⟨10, 10⟩) 3 4 10 10 ToolMode.MEASURE
        (fun _ _ => ⟨0, 0, 0⟩) ⟨some ⟨0, 0⟩, some ⟨1, 1⟩, some ⟨2, 2⟩⟩ =
      (⟨some ⟨3, 4⟩, none, some ⟨2, 2⟩⟩,
        [some ⟨⟨0, 0⟩, some ⟨3, 4⟩, distPixels ⟨0, 0⟩ ⟨3, 4⟩⟩, none], []) :=
  measure_click_transitions true true (some ⟨10, 10⟩) 3 4 10 10
    (fun _ _ => ⟨0, 0, 0⟩) ⟨0, 0⟩ ⟨1, 1⟩ (some ⟨2, 2⟩) ⟨3, 4⟩
    (by norm_num [getNaturalCoords])

/-- C3: completing a measurement with a second click reports a Measurement
whose end is present, whose start and end are exactly the recorded start
and the clicked point, and whose distancePixels is the genuine Euclidean
distance between the two points; for start (0,0) and end (3,4) the
computed distance is 5. -/
theorem measure_complete_euclidean (canvasAvailable ctxAvailable : Bool)
    (imgDimensions : Option Dims) (offX offY rectW rectH : ℚ)
    (img : ℤ → ℤ → RGB) (s0 : Point) (h : Option Point) (c : Point)
    (hc : getNaturalCoords canvasAvailable imgDimensions offX offY rectW rectH =
      some c) :
    (handleMouseDown canvasAvailable ctxAvailable imgDimensions
        offX offY rectW rectH ToolMode.MEASURE img ⟨some s0, none, h⟩).2.1 =
      [some ⟨s0, some c, dist (toE2 s0) (toE2 c)⟩] ∧
    distPixels ⟨0, 0⟩ ⟨3, 4⟩ = 5 := by
  constructor
  · unfold handleMouseDown
    rw [hc]
    show [some (⟨s0, some c, distPixels s0 c⟩ : MeasurementData)] =
      [some ⟨s0, some c, dist (toE2 s0) (toE2 c)⟩]
    rw [distPixels_eq_euclidean]
  · unfold distPixels
    norm_num
    rw [show (25 : ℝ) = 5 ^ 2 by norm_num, Real.sqrt_sq (by norm_num)]

/-- Witness for C3: the scenario from the specification, a start at
(10,10) and a click at (13,14) on a 20 by 20 image displayed at natural
size. -/
theorem measure_complete_euclidean_witness :
    (handleMouseDown true true (some ⟨20, 20⟩) 13 14 20 20 ToolMode.MEASURE
        (fun _ _ => ⟨0, 0, 0⟩) ⟨some ⟨10, 10⟩, none, none⟩).2.1 =
      [some ⟨⟨10, 10⟩, some ⟨13, 14⟩, dist (toE2 ⟨10, 10⟩) (toE2 ⟨13, 14⟩)⟩] ∧
    distPixels ⟨0, 0⟩ ⟨3, 4⟩ = 5 :=
  measure_complete_euclidean true true (some ⟨20, 20⟩) 13 14 20 20
    (fun _ _ => ⟨0, 0, 0⟩) ⟨10, 10⟩ none ⟨13, 14⟩
    (by norm_num [getNaturalCoords])

/-- C10: pickColor reads the pixel channels at the truncated coordinate
(the bitmap read truncates the mapped coordinate) but reports the rounded
coordinate, so on an axis whose fractional part is at least one half the
reported index names the pixel adjacent to the one actually read. -/
theorem pickColor_trunc_round (img : ℤ → ℤ → RGB) (c : Point)
    (hcx : 0 ≤ c.x) (hcy : 0 ≤ c.y) (hfr : 1 / 2 ≤ c.x - ⌊c.x⌋) :
    pickColor true img c =
      some ⟨(img ⌊c.x⌋ ⌊c.y⌋).r, (img ⌊c.x⌋ ⌊c.y⌋).g, (img ⌊c.x⌋ ⌊c.y⌋).b,
        rgbToHex (img ⌊c.x⌋ ⌊c.y⌋).r (img ⌊c.x⌋ ⌊c.y⌋).g (img ⌊c.x⌋ ⌊c.y⌋).b,
        ⌊c.x⌋ + 1, jsRound c.y⟩ ∧
    jsRound c.x ≠ jsTrunc c.x := by
  have htx : jsTrunc c.x = ⌊c.x⌋ := if_pos hcx
  have hty : jsTrunc c.y = ⌊c.y⌋ := if_pos hcy
  have hrx : jsRound c.x = ⌊c.x⌋ + 1 := by
    unfold jsRound
    rw [Int.floor_eq_iff]
    push_cast
    constructor
    · linarith
    · have := Int.lt_floor_add_one c.x
      linarith
  refine ⟨?_, ?_⟩
  · unfold pickColor
    rw [if_pos rfl]
    rw [htx, hty, hrx]
  · rw [hrx, htx]
    omega

/-- Witness for C10 at the coordinate (3/2, 1/4). -/
theorem pickColor_trunc_round_witness :
    pickColor true (fun _ _ => ⟨7, 8, 9⟩) ⟨3 / 2, 1 / 4⟩ =
      some ⟨((fun (_ _ : ℤ) => (⟨7, 8, 9⟩ : RGB)) ⌊(3 / 2 : ℚ)⌋ ⌊(1 / 4 : ℚ)⌋).r,
        ((fun (_ _ : ℤ) => (⟨7, 8, 9⟩ : RGB)) ⌊(3 / 2 : ℚ)⌋ ⌊(1 / 4 : ℚ)⌋).g,
        ((fun (_ _ : ℤ) => (⟨7, 8, 9⟩ : RGB)) ⌊(3 / 2 : ℚ)⌋ ⌊(1 / 4 : ℚ)⌋).b,
        rgbToHex ((fun (_ _ : ℤ) => (⟨7, 8, 9⟩ : RGB)) ⌊(3 / 2 : ℚ)⌋ ⌊(1 / 4 : ℚ)⌋).r
          ((fun (_ _ : ℤ) => (⟨7, 8, 9⟩ : RGB)) ⌊(3 / 2 : ℚ)⌋ ⌊(1 / 4 : ℚ)⌋).g
          ((fun (_ _ : ℤ) => (⟨7, 8, 9⟩ : RGB)) ⌊(3 / 2 : ℚ)⌋ ⌊(1 / 4 : ℚ)⌋).b,
        ⌊(3 / 2 : ℚ)⌋ + 1, jsRound (1 / 4)⟩ ∧
    jsRound (3 / 2) ≠ jsTrunc (3 / 2) :=
  pickColor_trunc_round (fun _ _ => ⟨7, 8, 9⟩) ⟨3 / 2, 1 / 4⟩
    (by norm_num) (by norm_num) (by norm_num)

/-- Helper: with enough fuel, the digit accumulation loop of Nat.toDigits
produces the base-b digits of n, most significant first, in front of the
accumulator. -/
theorem toDigitsCore_eq_digits (b : ℕ) (hb : 2 ≤ b) (fuel : ℕ) :
    ∀ (n : ℕ) (ds : List Char), 0 < n → n < b ^ fuel →
      Nat.toDigitsCore b fuel n ds =
        ((Nat.digits b n).map Nat.digitChar).reverse ++ ds := by
  induction fuel with
  | zero =>
    intro n ds hn hlt
    simp only [pow_zero] at hlt
    omega
  | succ fuel ih =>
    intro n ds hn hlt
    have hb0 : 0 < b := by omega
    rw [Nat.toDigitsCore]
    by_cases h0 : n / b = 0
    · simp only [h0, if_true, reduceIte]
      have hnb : n < b := by
        rcases Nat.lt_or_ge n b with h | h
        · exact h
        · exfalso
          have := Nat.div_le_div_right (c := b) h
          rw [Nat.div_self hb0] at this
          omega
      rw [Nat.digits_def' (by omega : 1 < b) hn, h0, Nat.digits_zero]
      simp [Nat.mod_eq_of_lt hnb]
    · simp only [h0, if_false, reduceIte]
      have h1 : 0 < n / b := Nat.pos_of_ne_zero h0
      have h2 : n / b < b ^ fuel := by
        rw [Nat.div_lt_iff_lt_mul hb0]
        calc n < b ^ (fuel + 1) := hlt
          _ = b ^ fuel * b := by ring
      rw [ih (n / b) _ h1 h2, Nat.digits_def' (by omega : 1 < b) hn]
      simp

/-- Helper: Nat.toDigits of a positive number lists its base-b digits most
significant first. -/
theorem toDigits_eq_digits (b n : ℕ) (hb : 2 ≤ b) (hn : 0 < n) :
    Nat.toDigits b n = ((Nat.digits b n).map Nat.digitChar).reverse := by
  have h : n < b ^ (n + 1) := by
    calc n < b ^ n := Nat.lt_pow_self (by omega) n
      _ ≤ b ^ (n + 1) := Nat.pow_le_pow_right (by omega) (by omega)
  simpa using toDigitsCore_eq_digits b hb (n + 1) n [] hn h

/-- Helper: the base-16 digits of the padded quantity built in pickColor
are the six channel nibbles followed by the sentinel digit 1. -/
theorem digits16_hex (r g bl : ℕ) (hr : r ≤ 255) (hg : g ≤ 255)
    (hbl : bl ≤ 255) :
    Nat.digits 16 (16777216 + r * 65536 + g * 256 + bl) =
      [bl % 16, bl / 16, g % 16, g / 16, r % 16, r / 16, 1] := by
  have h16 : (1 : ℕ) < 16 := by norm_num
  rw [Nat.digits_def' h16 (by omega)]
  rw [show (16777216 + r * 65536 + g * 256 + bl) % 16 = bl % 16 by omega]
  rw [show (16777216 + r * 65536 + g * 256 + bl) / 16
      = 1048576 + r * 4096 + g * 16 + bl / 16 by omega]
  rw [Nat.digits_def' h16 (by omega)]
  rw [show (1048576 + r * 4096 + g * 16 + bl / 16) % 16 = bl / 16 by omega]
  rw [show (1048576 + r * 4096 + g * 16 + bl / 16) / 16
      = 65536 + r * 256 + g by omega]
  rw [Nat.digits_def' h16 (by omega)]
  rw [show (65536 + r * 256 + g) % 16 = g % 16 by omega]
  rw [show (65536 + r * 256 + g) / 16 = 4096 + r * 16 + g / 16 by omega]
  rw [Nat.digits_def' h16 (by omega)]
  rw [show (4096 + r * 16 + g / 16) % 16 = g / 16 by omega]
  rw [show (4096 + r * 16 + g / 16) / 16 = 256 + r by omega]
  rw [Nat.digits_def' h16 (by omega)]
  rw [show (256 + r) % 16 = r % 16 by omega]
  rw [show (256 + r) / 16 = 16 + r / 16 by omega]
  rw [Nat.digits_def' h16 (by omega)]
  rw [show (16 + r / 16) % 16 = r / 16 by omega]
  rw [show (16 + r / 16) / 16 = 1 by omega]
  rw [Nat.digits_def' h16 (by omega)]
  norm_num

/-- Helper: lowercase hex digit characters uppercased agree with the
uppercase reference alphabet. -/
theorem hexDigitU_eq_digitChar (k : ℕ) (hk : k < 16) :
    (Nat.digitChar k).toUpper = hexDigitU k := by
  interval_cases k <;> decide

/-- Helper: the hex string built in pickColor is the hash character
followed by the six uppercase nibble digits of the three channels. -/
theorem rgbToHex_eq (r g bl : ℕ) (hr : r ≤ 255) (hg : g ≤ 255)
    (hbl : bl ≤ 255) :
    rgbToHex r g bl =
      String.mk ['#', hexDigitU (r / 16), hexDigitU (r % 16), hexDigitU (g / 16),
        hexDigitU (g % 16), hexDigitU (bl / 16), hexDigitU (bl % 16)] := by
  have hn : (1 <<< 24) + (r <<< 16) + (g <<< 8) + bl
      = 16777216 + r * 65536 + g * 256 + bl := by
    simp [Nat.shiftLeft_eq]
  unfold rgbToHex natToString16
  rw [hn, toDigits_eq_digits 16 _ (by norm_num) (by omega),
    digits16_hex r g bl hr hg hbl]
  apply String.ext
  simp only [String.data_append, String.toUpper, String.map_eq, String.drop_eq,
    List.map_cons, List.map_nil, List.reverse_cons, List.reverse_nil,
    List.nil_append, List.cons_append, List.append_nil, List.drop_succ_cons,
    List.drop_nil, List.drop_zero]
  rw [hexDigitU_eq_digitChar _ (by omega), hexDigitU_eq_digitChar _ (by omega),
    hexDigitU_eq_digitChar _ (by omega), hexDigitU_eq_digitChar _ (by omega),
    hexDigitU_eq_digitChar _ (by omega), hexDigitU_eq_digitChar _ (by omega)]

/-- C4 counterexample: the hex string for full red is seven characters
long, refuting the claim that the hex field is an 8-character string. -/
theorem rgbToHex_not_eight_chars : (rgbToHex 255 0 0).length ≠ 8 := by
  rw [rgbToHex_eq 255 0 0 (by norm_num) (by norm_num) (by norm_num)]
  decide

/-- C4 amended: for channel values in 0..255 the hex field is a
7-character string, the hash character followed by six uppercase
zero-padded hexadecimal digits encoding r, g and b; full red gives
hash FF0000, black gives hash 000000, and (16,32,48) gives hash 102030. -/
theorem colorSample_hex_format (r g bl : ℕ) (hr : r ≤ 255) (hg : g ≤ 255)
    (hbl : bl ≤ 255) :
    rgbToHex r g bl =
      String.mk ['#', hexDigitU (r / 16), hexDigitU (r % 16), hexDigitU (g / 16),
        hexDigitU (g % 16), hexDigitU (bl / 16), hexDigitU (bl % 16)] ∧
    (rgbToHex r g bl).length = 7 ∧
    rgbToHex 255 0 0 = "#FF0000" ∧
    rgbToHex 0 0 0 = "#000000" ∧
    rgbToHex 16 32 48 = "#102030" := by
  refine ⟨rgbToHex_eq r g bl hr hg hbl, ?_, ?_, ?_, ?_⟩
  · rw [rgbToHex_eq r g bl hr hg hbl]
    rfl
  · rw [rgbToHex_eq 255 0 0 (by norm_num) (by norm_num) (by norm_num)]
    decide
  · rw [rgbToHex_eq 0 0 0 (by norm_num) (by norm_num) (by norm_num)]
    decide
  · rw [rgbToHex_eq 16 32 48 (by norm_num) (by norm_num) (by norm_num)]
    decide

/-- Witness for C4 at full red. -/
theorem colorSample_hex_format_witness :
    rgbToHex 255 0 0 =
      String.mk ['#', hexDigitU (255 / 16), hexDigitU (255 % 16),
        hexDigitU (0 / 16), hexDigitU (0 % 16), hexDigitU (0 / 16),
        hexDigitU (0 % 16)] ∧
    (rgbToHex 255 0 0).length = 7 ∧
    rgbToHex 255 0 0 = "#FF0000" ∧
    rgbToHex 0 0 0 = "#000000" ∧
    rgbToHex 16 32 48 = "#102030" :=
  colorSample_hex_format 255 0 0 (by decide) (by decide) (by decide)

end VisionMatrix
